import Mathlib

/-!
Verification of `go_rainbowgif` (`src/main.go`) against its natural-language
specification.  The Go program applies a time-varying color overlay to every
frame of an animated GIF.  We embed the data model and the operations the
claims refer to as executable Lean definitions and prove (or refute) each
claim about them.

Conventions of the embedding:
* Go `float64` color components are modelled as rationals (`ℚ`); none of the
  settled claims depends on floating-point rounding.
* A Go `color.Color` interface value is modelled by the inductive `GoColor`:
  either an opaque value identified by its `RGBA()` result (16-bit channels,
  as in Go's `image/color`), or a constructed `color.NRGBA` literal, exactly
  the two shapes that occur in `prepareFrame`.
* The `go-colorful` library (an external dependency, not part of `src/`) is
  abstracted: `prepareFrame` is parametrised over a `ColorfulOps` record
  holding `MakeColor`, `Clamped`, `blendColor` and `RGB255`; its hex parser
  is modelled from the spec (see `colorfulHex`).
* The goroutine scheduler of `main` (lines 149-185) is embedded as a small
  state machine whose shared variables `frameIndex` / `normalizedFrameIndex`
  are read and written by interleaved atomic micro-steps, one micro-step per
  Go statement of the loop body.  A schedule (list of worker ids) picks the
  interleaving; this is a sequentially-consistent over-approximation of what
  the unsynchronised Go code may do.
-/

/-- A `colorful.Color`: three `float64` components, modelled as rationals. -/
abbrev CColor : Type := ℚ × ℚ × ℚ

/-- A Go `color.Color` interface value as it occurs in `prepareFrame`:
`raw` is an arbitrary palette entry identified by its `RGBA()` result
(each channel in `0..65535`), `nrgba` is a constructed `color.NRGBA`
literal (each channel a byte). -/
inductive GoColor : Type where
  | raw (r g b a : Nat)
  | nrgba (r g b a : Nat)
deriving DecidableEq

instance : Inhabited GoColor := ⟨GoColor.raw 0 0 0 0⟩

/-- The `RGBA()` method of `image/color`: `raw` colors report their stored
channels; an `NRGBA` value alpha-premultiplies, `R16 = (r*0x101 * A16) / 0xffff`
with `A16 = a * 0x101`. -/
def GoColor.rgba : GoColor → Nat × Nat × Nat × Nat
  | .raw r g b a => (r, g, b, a)
  | .nrgba r g b a =>
      (r * 257 * (a * 257) / 65535, g * 257 * (a * 257) / 65535,
       b * 257 * (a * 257) / 65535, a * 257)

/-- The alpha channel of the `RGBA()` result. -/
def GoColor.alpha (c : GoColor) : Nat := c.rgba.2.2.2

/-- The operations `prepareFrame` uses from the external `go-colorful`
library.  `makeColor` returns `none` when the conversion into perceptual
space fails (Go's `colorful.MakeColor` second result `ok = false`). -/
structure ColorfulOps : Type where
  makeColor : GoColor → Option CColor
  clamped : CColor → CColor
  blendColor : CColor → CColor → CColor
  rgb255 : CColor → Nat × Nat × Nat

/-- The bounding rectangle of an `image.Paletted` (`image.Rectangle`). -/
structure GoRect : Type where
  minX : Int
  minY : Int
  maxX : Int
  maxY : Int
deriving DecidableEq

/-- An `*image.Paletted`: pixel index buffer, stride, bounds and palette. -/
structure Paletted : Type where
  pix : List Nat
  stride : Int
  rect : GoRect
  palette : List GoColor
deriving DecidableEq

/-- The body of the palette loop of `prepareFrame` (src/main.go lines
29-49) for one entry `pixel`: when `alpha == 0 || !ok` the original entry
is kept (`dst.Palette[pixelIndex] = pixel; continue`); otherwise the
converted color is clamped, blended with the overlay, and written back as
`color.NRGBA{blendedR, blendedG, blendedB, 255}`. -/
def blendPaletteEntry (ops : ColorfulOps) (overlayColor : CColor)
    (pixel : GoColor) : GoColor :=
  match ops.makeColor pixel with
  | none => pixel
  | some convertedPixel =>
      if pixel.alpha = 0 then pixel
      else
        let clampedPixel := ops.clamped convertedPixel
        let blendedPixel := ops.blendColor overlayColor clampedPixel
        let rgb := ops.rgb255 blendedPixel
        GoColor.nrgba rgb.1 rgb.2.1 rgb.2.2 255

/-- `prepareFrame` (src/main.go lines 23-50): the destination frame shares
`Pix`, `Stride` and `Rect` with the source and gets a freshly built palette
of the same length, each entry transformed by the loop body. -/
def prepareFrame (ops : ColorfulOps) (src : Paletted) (overlayColor : CColor) :
    Paletted :=
  { pix := src.pix
    stride := src.stride
    rect := src.rect
    palette := src.palette.map (blendPaletteEntry ops overlayColor) }

/-- Is `c` a hexadecimal digit? -/
def isHexDig (c : Char) : Bool :=
  c.isDigit || (('a' ≤ c) && (c ≤ 'f')) || (('A' ≤ c) && (c ≤ 'F'))

/-- Numeric value of a hexadecimal digit. -/
def hexVal (c : Char) : Nat :=
  if c.isDigit then c.toNat - '0'.toNat
  else if ('a' ≤ c) && (c ≤ 'f') then c.toNat - 'a'.toNat + 10
  else if ('A' ≤ c) && (c ≤ 'F') then c.toNat - 'A'.toNat + 10
  else 0

/-- Is `s` exactly six hexadecimal digits? -/
def isSixHex (s : String) : Bool :=
  s.data.length = 6 && s.data.all isHexDig

/-- The color denoted by six hexadecimal digits, each channel scaled to
`[0,1]`. -/
def sixHexColor (l : List Char) : CColor :=
  match l with
  | [r1, r2, g1, g2, b1, b2] =>
      (((hexVal r1 * 16 + hexVal r2 : ℚ) / 255),
       ((hexVal g1 * 16 + hexVal g2 : ℚ) / 255),
       ((hexVal b1 * 16 + hexVal b2 : ℚ) / 255))
  | _ => (0, 0, 0)

/-- Modelled from the spec: `colorful.Hex` belongs to the external
`go-colorful` library (the spec's ColorSpaceConverter), whose code is not
under `src/`.  Per §4.1, "parsing a textual hex color fails with
`InvalidColorFormat` when the string is not exactly 6 hexadecimal digits";
the argument carries the leading `#` that `parseGradientColors` prepends. -/
def colorfulHex (s : String) : Option CColor :=
  match s.data with
  | '#' :: rest =>
      if rest.length = 6 && rest.all isHexDig then some (sixHexColor rest)
      else none
  | _ => none

/-- The loop body of `parseGradientColors` over the comma-separated pieces:
the first piece that `colorful.Hex` rejects aborts with
`"Invalid color: <hex>"`, otherwise the parsed colors are collected in
order (src/main.go lines 60-68). -/
def parseHexList : List String → Except String (List CColor)
  | [] => Except.ok []
  | hex :: rest =>
      match colorfulHex ("#" ++ hex) with
      | none => Except.error ("Invalid color: " ++ hex)
      | some c =>
          match parseHexList rest with
          | Except.error e => Except.error e
          | Except.ok cs => Except.ok (c :: cs)

/-- The built-in ROYGBV default gradient (src/main.go lines 70-78); the Go
`float64` literals `127.0/255.0` and `139.0/255.0` are modelled as exact
rationals. -/
def roygbv : List CColor :=
  [(1, 0, 0), (1, 127 / 255, 0), (1, 1, 0), (0, 1, 0), (0, 0, 1),
   (139 / 255, 0, 1)]

/-- `parseGradientColors` (src/main.go lines 56-82): a non-empty flag value
is split on commas and each piece parsed as a hex color; an empty value
yields the built-in rainbow default. -/
def parseGradientColors (gradientColors : String) : Except String (List CColor) :=
  if gradientColors.length ≠ 0 then parseHexList (gradientColors.splitOn ",")
  else Except.ok roygbv

/-- Is an `Except` result an error? -/
def isErr {ε α : Type} : Except ε α → Bool
  | Except.error _ => true
  | Except.ok _ => false

/-- Componentwise linear interpolation between two colors. -/
def lerpColor (c0 c1 : CColor) (t : ℚ) : CColor :=
  (c0.1 + (c1.1 - c0.1) * t,
   c0.2.1 + (c1.2.1 - c0.2.1) * t,
   c0.2.2 + (c1.2.2 - c0.2.2) * t)

/-- Modelled from the spec: `newGradient(colors, true)` /
`gradient.generate(frameCount)` are repository code not under `src/`.
Per §4.3 (looping case, the one `main` uses): slot `i` has parametric
position `t = i / frameCount`; the control colors are evenly spaced anchors
over `[0, 1)`; the two adjacent controls bracketing `t` (wrapping from the
last back to the first) are linearly interpolated by the fractional offset
within that segment; a single control color yields a constant sequence.
The conversion to perceptual space is abstracted as the identity on the
rational color triple (no settled claim observes the interpolated values). -/
def generate (controls : List CColor) (frameCount : Nat) : List CColor :=
  (List.range frameCount).map (fun i =>
    match controls with
    | [] => (0, 0, 0)
    | [c] => c
    | _ =>
        let m := controls.length
        let seg := i * m / frameCount
        let frac : ℚ := (i * m : ℚ) / (frameCount : ℚ) - (seg : ℚ)
        lerpColor (controls.getD (seg % m) (0, 0, 0))
          (controls.getD ((seg + 1) % m) (0, 0, 0)) frac)

/-- The empty `*image.Paletted` allocated by `new(image.Paletted)`. -/
def emptyPaletted : Paletted :=
  { pix := [], stride := 0, rect := ⟨0, 0, 0, 0⟩, palette := [] }

/-- The `newFrames` slice after the allocation loop of src/main.go lines
141-144: `frameCount` slots, each holding a fresh non-nil empty frame
(`none` would model a nil pointer). -/
def newFramesAlloc (frameCount : Nat) : List (Option Paletted) :=
  List.replicate frameCount (some emptyPaletted)

/-- Static configuration of the goroutine scheduler of `main`
(src/main.go lines 149-185): `n = len(img.Image)` source frames,
`frameCount = len(newFrames)` output slots, `threads` workers. -/
structure SchedCfg : Type where
  n : Nat
  frameCount : Nat
  threads : Nat
deriving DecidableEq

/-- `framesPerThread := len(img.Image)/threads + 1` (src/main.go line 149). -/
def framesPerThread (c : SchedCfg) : Nat := c.n / c.threads + 1

/-- Program counter of one worker goroutine, one value per Go statement of
the loop body that touches shared state:
`quota` = `processed < framesPerThread` (reads only the local `processed`),
`bound` = `frameIndex >= len(newFrames)` (reads the shared `frameIndex`),
`norm` = the `normalizedFrameIndex >= len(img.Image)` reset,
`work` = the `prepareFrame(...)` call (reads both shared indices),
`incF` = `frameIndex++`, `incN` = `normalizedFrameIndex++`,
`done` = after `ch <- 1`. -/
inductive WPC : Type where
  | quota
  | bound
  | norm
  | work
  | incF
  | incN
  | done
deriving DecidableEq

/-- Local state of one worker goroutine: its program counter and its
`processed` counter (which the Go code initialises to `0` and, notably,
never increments). -/
structure WorkerSt : Type where
  pc : WPC
  processed : Nat
deriving DecidableEq

/-- One `prepareFrame` invocation as observed by the scheduler: the output
slot written (`newFrames[frameIndex]`), the source frame read
(`img.Image[normalizedFrameIndex]`) and the overlay color read
(`overlayColors[frameIndex]`). -/
structure WriteEv : Type where
  slot : Nat
  srcIdx : Nat
  ovIdx : Nat
deriving DecidableEq

/-- Shared state of the scheduler: the two shared mutable cursors
`frameIndex` and `normalizedFrameIndex` (captured by every goroutine's
closure), the per-worker local states, and the log of `prepareFrame`
invocations in the order they happen. -/
structure MState : Type where
  fI : Nat
  nI : Nat
  workers : List WorkerSt
  log : List WriteEv
deriving DecidableEq

/-- Initial state: both cursors `0`, every worker at the loop head with
`processed = 0`, nothing written. -/
def initState (threads : Nat) : MState :=
  { fI := 0, nI := 0,
    workers := List.replicate threads { pc := WPC.quota, processed := 0 },
    log := [] }

/-- Replace worker `w`'s local state. -/
def setWorker (s : MState) (w : Nat) (wk : WorkerSt) : MState :=
  { s with workers := s.workers.set w wk }

/-- One atomic micro-step of worker `w`, following the loop body of
src/main.go lines 156-179 statement by statement.  Reads of the shared
cursors happen at the step that executes the statement, exactly as the Go
closures re-read the captured variables. -/
def stepWorker (c : SchedCfg) (s : MState) (w : Nat) : MState :=
  match s.workers[w]? with
  | none => s
  | some wk =>
      match wk.pc with
      | WPC.quota =>
          if wk.processed < framesPerThread c then
            setWorker s w { wk with pc := WPC.bound }
          else setWorker s w { wk with pc := WPC.done }
      | WPC.bound =>
          if c.frameCount ≤ s.fI then setWorker s w { wk with pc := WPC.done }
          else setWorker s w { wk with pc := WPC.norm }
      | WPC.norm =>
          if c.n ≤ s.nI then
            { setWorker s w { wk with pc := WPC.work } with nI := 0 }
          else setWorker s w { wk with pc := WPC.work }
      | WPC.work =>
          { setWorker s w { wk with pc := WPC.incF } with
              log := s.log ++ [{ slot := s.fI, srcIdx := s.nI, ovIdx := s.fI }] }
      | WPC.incF =>
          { setWorker s w { wk with pc := WPC.incN } with fI := s.fI + 1 }
      | WPC.incN =>
          { setWorker s w { wk with pc := WPC.quota } with nI := s.nI + 1 }
      | WPC.done => s

/-- Run the scheduler under the interleaving `sched`: each entry names the
worker that executes its next micro-step. -/
def execSchedule (c : SchedCfg) (sched : List Nat) : MState :=
  sched.foldl (stepWorker c) (initState c.threads)

/-- Every worker has finished (sent on `ch`), so the barrier loop of
src/main.go lines 183-185 has returned. -/
def allDone (s : MState) : Prop :=
  ∀ wk ∈ s.workers, wk.pc = WPC.done

instance (s : MState) : Decidable (allDone s) := by
  unfold allDone; infer_instance

/-- The `prepareFrame` invocations that wrote output slot `i`. -/
def slotWrites (s : MState) (i : Nat) : List WriteEv :=
  s.log.filter (fun e => e.slot == i)

/-- How many times output slot `i` was written. -/
def writeCount (s : MState) (i : Nat) : Nat := (slotWrites s i).length

/-- The per-slot view of a finished run: for each output slot, the list of
`prepareFrame` invocations that targeted it (empty = the slot still holds
the untouched `new(image.Paletted)`). -/
def outputsOf (c : SchedCfg) (s : MState) : List (List WriteEv) :=
  (List.range c.frameCount).map (slotWrites s)

/-- The schedule in which worker 0 runs alone to completion: the sequential
execution (the only possible one when `threads = 1`).  Each processed frame
takes six micro-steps, plus two final steps to observe
`frameIndex >= len(newFrames)` and exit. -/
def seqSchedule (frameCount : Nat) : List Nat :=
  List.replicate (6 * frameCount + 2) 0

/-- The decoded `*gif.GIF` structure, restricted to the fields `main`
touches: frames, per-frame delays, per-frame disposal bytes, background
index, and whether `Config.ColorModel` is set (`none` models Go `nil`). -/
structure GIFData : Type where
  image : List Paletted
  delay : List Int
  disposal : List Nat
  backgroundIndex : Nat
  colorModel : Option Unit
deriving DecidableEq

/-- The metadata reassembly of src/main.go lines 187-208: the new delay and
disposal arrays have one entry per new frame, cycled from the old arrays by
`old[i % len(old)]`; the frames are replaced; `Config.ColorModel` is set to
`nil` and `BackgroundIndex` to `0` before encoding. -/
def assembleOutput (img : GIFData) (newFrames : List Paletted) : GIFData :=
  { image := newFrames
    delay := (List.range newFrames.length).map
      (fun i => img.delay.getD (i % img.delay.length) 0)
    disposal := (List.range newFrames.length).map
      (fun i => img.disposal.getD (i % img.disposal.length) 0)
    backgroundIndex := 0
    colorModel := none }

/-- The inputs `main` consumes, with the outside world (flag values,
positional arguments, and the four fallible I/O interactions) made
explicit.  `openErr`/`outOpenErr`/`encodeErr` are `some e` when the
corresponding call fails with error text `e`; `decodeRes` is
`gif.DecodeAll`'s result. -/
structure CmdInput : Type where
  threads : Int
  gradient : String
  loopCount : Int
  args : List String
  openErr : Option String
  decodeRes : Except String GIFData
  outOpenErr : Option String
  encodeErr : Option String

/-- The control flow of `main` (src/main.go lines 101-215) as a function
from its inputs to either an exit `(code, message)` or the encoded GIF,
paired with the number of output slots handed to the frame-processing
stage before the run ended (0 whenever a check fails before the worker
loop).  Frame contents themselves are settled by the scheduler model
(`MState`); the success payload uses the freshly allocated frames. -/
def runMain (inp : CmdInput) : Except (Nat × String) GIFData × Nat :=
  if inp.threads ≤ 0 then
    (Except.error (1, "Thread count must be at least 1"), 0)
  else
    match parseGradientColors inp.gradient with
    | Except.error e => (Except.error (1, e), 0)
    | Except.ok _ =>
        if inp.loopCount < 1 then
          (Except.error (1, "Loop count must be at least 1"), 0)
        else if inp.args.length ≠ 2 then
          (Except.error (1, "Expected two positional arguments: input and output"), 0)
        else
          match inp.openErr with
          | some e => (Except.error (1, "Error opening file: " ++ e), 0)
          | none =>
              match inp.decodeRes with
              | Except.error e => (Except.error (1, "Error decoding: " ++ e), 0)
              | Except.ok img =>
                  let frameCount := img.image.length * inp.loopCount.toNat
                  match inp.outOpenErr with
                  | some e =>
                      (Except.error (1, "Error opening file: " ++ e), frameCount)
                  | none =>
                      match inp.encodeErr with
                      | some e =>
                          (Except.error (1, "Error encoding image: " ++ e), frameCount)
                      | none =>
                          (Except.ok (assembleOutput img
                            (List.replicate frameCount emptyPaletted)), frameCount)

/-- A concrete scheduler configuration: 2 source frames, `loop_count = 1`
(so 2 output slots), 2 worker goroutines; `framesPerThread = 2/2 + 1 = 2`. -/
def cfgTwo : SchedCfg := { n := 2, frameCount := 2, threads := 2 }

/-- An interleaving of `cfgTwo` in which both workers pass the bound check
and reach the `prepareFrame` call while `frameIndex` is still `0`, then
both increment it: slot 0 is processed twice, slot 1 never. -/
def schedRace : List Nat :=
  [0, 0, 0, 1, 1, 1, 0, 1, 0, 0, 1, 1, 0, 0, 1, 1]

/-- The race-free interleaving of `cfgTwo`: worker 0 runs to completion,
then worker 1 observes `frameIndex >= len(newFrames)` and exits. -/
def schedSeqTwo : List Nat := seqSchedule 2 ++ [1, 1]

/-- A concrete scheduler configuration: 1 source frame, `loop_count = 3`
(so 3 output slots), 2 worker goroutines; `framesPerThread = 1/2 + 1 = 1`. -/
def cfgOne : SchedCfg := { n := 1, frameCount := 3, threads := 2 }

/-- An interleaving of `cfgOne` in which worker 1 passes the
`normalizedFrameIndex` reset check while the cursor is `0`, worker 0 then
advances both cursors, and worker 1's `prepareFrame` call reads
`img.Image[1]` — past the end of the 1-frame source. -/
def schedOOB : List Nat := [0, 0, 0, 1, 1, 1, 0, 0, 0, 1]

/-- A concrete scheduler configuration for the sequential run: 1 source
frame, `loop_count = 3`, a single worker; `framesPerThread = 1/1 + 1 = 2`,
strictly less than the 3 output slots. -/
def cfgSeqOne : SchedCfg := { n := 1, frameCount := 3, threads := 1 }

/-- A concrete instantiation of the `go-colorful` operations, used to
evaluate the `prepareFrame` theorems at a closed input: conversion fails
exactly on zero alpha (as `colorful.MakeColor` does), blending returns the
overlay, `RGB255` truncates each channel to a byte. -/
def opsW : ColorfulOps :=
  { makeColor := fun c => if c.alpha = 0 then none else some (1, 0, 0)
    clamped := fun c => c
    blendColor := fun overlay _ => overlay
    rgb255 := fun c => (c.1.num.toNat % 256, c.2.1.num.toNat % 256,
      c.2.2.num.toNat % 256) }

/-- A two-entry palette: a transparent entry and an opaque one. -/
def srcW : Paletted :=
  { pix := [0, 1, 1, 0], stride := 2, rect := ⟨0, 0, 2, 2⟩,
    palette := [GoColor.raw 10 20 30 0, GoColor.raw 40 50 60 65535] }

/-! ## Helper lemmas -/

theorem getD_range_map {α : Type} (f : Nat → α) (k i : Nat) (d : α)
    (h : i < k) : ((List.range k).map f).getD i d = f i := by
  simp [List.getD_eq_getElem?_getD, List.getElem?_map, List.getElem?_range, h]

theorem getD_map_of_lt {α β : Type} (f : α → β) (l : List α) (i : Nat)
    (d1 : α) (d2 : β) (h : i < l.length) :
    (l.map f).getD i d2 = f (l.getD i d1) := by
  simp [List.getD_eq_getElem?_getD, List.getElem?_map,
    List.getElem?_eq_getElem h]

theorem strLength_eq_zero_iff (s : String) : s.length = 0 ↔ s = "" := by
  constructor
  · intro h
    cases s with
    | mk data =>
        cases data with
        | nil => rfl
        | cons a t => simp [String.length] at h
  · intro h; subst h; rfl

/-- `colorful.Hex("#" ++ hex)` succeeds exactly when `hex` is six
hexadecimal digits. -/
theorem colorfulHex_hash (hex : String) :
    colorfulHex ("#" ++ hex)
      = if isSixHex hex then some (sixHexColor hex.data) else none := by
  unfold colorfulHex isSixHex
  simp [String.data_append]

theorem parseHexList_isErr (l : List String) :
    isErr (parseHexList l) = !l.all isSixHex := by
  induction l with
  | nil => rfl
  | cons hex rest ih =>
      unfold parseHexList
      rw [colorfulHex_hash hex]
      by_cases h6 : isSixHex hex
      · simp only [h6, if_true]
        cases hrest : parseHexList rest with
        | error e => simp [isErr, ← ih, hrest, h6]
        | ok cs => simp [isErr, ← ih, hrest, h6]
      · simp [isErr, h6]

theorem stepWorker_processed (c : SchedCfg) (s : MState) (w : Nat)
    (h : ∀ wk ∈ s.workers, wk.processed = 0) :
    ∀ wk ∈ (stepWorker c s w).workers, wk.processed = 0 := by
  unfold stepWorker
  cases hw : s.workers[w]? with
  | none => exact h
  | some wk =>
      have hwk : wk.processed = 0 := h wk (List.getElem?_mem hw)
      obtain ⟨pc, pr⟩ := wk
      simp only at hwk
      subst hwk
      cases pc <;> dsimp only [setWorker] <;>
        first
        | exact h
        | (intro wk2 hm
           rcases List.mem_or_eq_of_mem_set hm with h2 | h2
           · exact h wk2 h2
           · subst h2; rfl)
        | (split <;> intro wk2 hm <;>
           rcases List.mem_or_eq_of_mem_set hm with h2 | h2 <;>
             first
             | exact h wk2 h2
             | (subst h2; rfl))

theorem foldl_stepWorker_processed (c : SchedCfg) (sched : List Nat)
    (s : MState) (h : ∀ wk ∈ s.workers, wk.processed = 0) :
    ∀ wk ∈ (sched.foldl (stepWorker c) s).workers, wk.processed = 0 := by
  induction sched generalizing s with
  | nil => exact h
  | cons w rest ih =>
      exact ih (stepWorker c s w) (stepWorker_processed c s w h)

/-! ## Claims -/

/-- C1: the claim says the output slots are divided into contiguous,
non-overlapping per-worker ranges computed up front, each slot is processed
exactly once, and the workers never share a mutable cursor.  The code
instead lets every goroutine read and increment the shared
`frameIndex`/`normalizedFrameIndex` cursors without synchronisation.  This
theorem evaluates the loop at a failing input: 2 source frames,
`loop_count = 1`, 2 workers, and the interleaving `schedRace` in which both
workers pass the bound check before either increments the cursor.  All
workers finish (the barrier returns), yet slot 0 was processed twice and
slot 1 not at all. -/
theorem scheduler_race_duplicates_and_skips :
    allDone (execSchedule cfgTwo schedRace) ∧
    writeCount (execSchedule cfgTwo schedRace) 0 = 2 ∧
    writeCount (execSchedule cfgTwo schedRace) 1 = 0 := by decide

/-- C2: the claim says output slot `i` is always produced from source
frame `i mod len(sourceFrames)` and overlay color `overlaySequence[i]`.
Evaluating the loop at a failing input refutes this: with a 1-frame
source, `loop_count = 3` and 2 workers, the interleaving `schedOOB` lets
worker 1 pass the `normalizedFrameIndex` reset check while the cursor is
0, after which worker 0 advances both cursors; worker 1's `prepareFrame`
call then consults source index 1 — out of range for the 1-frame source
(`1 mod 1 = 0`), an index-out-of-range panic in Go.  Moreover, under
`schedRace` the run completes with slot 1 never produced at all. -/
theorem scheduler_race_breaks_slot_pairing :
    (∃ e ∈ (execSchedule cfgOne schedOOB).log,
       e.slot = 1 ∧ cfgOne.n ≤ e.srcIdx ∧ e.srcIdx ≠ e.slot % cfgOne.n) ∧
    allDone (execSchedule cfgTwo schedRace) ∧
    slotWrites (execSchedule cfgTwo schedRace) 1 = [] := by decide

/-- C3: for every palette entry, if its alpha channel is zero or the
conversion to perceptual space fails, the output entry is the original
device color unchanged; otherwise the output entry carries maximum alpha
(`NRGBA` alpha byte 255, i.e. `RGBA()` alpha 65535), regardless of the
base entry's alpha.  Proved for every choice of the library operations. -/
theorem prepareFrame_transparency_rule (ops : ColorfulOps) (src : Paletted)
    (overlayColor : CColor) (i : Nat) (h : i < src.palette.length) :
    (((src.palette.getD i default).alpha = 0 ∨
        ops.makeColor (src.palette.getD i default) = none) →
      (prepareFrame ops src overlayColor).palette.getD i default
        = src.palette.getD i default) ∧
    ((src.palette.getD i default).alpha ≠ 0 →
      (ops.makeColor (src.palette.getD i default)).isSome = true →
      ((prepareFrame ops src overlayColor).palette.getD i default).alpha
        = 65535) := by
  have key : (prepareFrame ops src overlayColor).palette.getD i default
      = blendPaletteEntry ops overlayColor (src.palette.getD i default) :=
    getD_map_of_lt _ _ _ default _ h
  constructor
  · intro hc
    rw [key]
    unfold blendPaletteEntry
    rcases hc with hc | hc
    · cases hmc : ops.makeColor (src.palette.getD i default) with
      | none => rfl
      | some cp =>
          dsimp only
          rw [if_pos hc]
    · rw [hc]
  · intro ha hs
    rw [key]
    unfold blendPaletteEntry
    cases hmc : ops.makeColor (src.palette.getD i default) with
    | none => rw [hmc] at hs; simp at hs
    | some cp =>
        dsimp only
        rw [if_neg ha]
        rfl

/-- Witness for C3: with the concrete operations `opsW` and source `srcW`,
palette entry 0 (alpha 0) passes through unchanged. -/
theorem prepareFrame_transparency_rule_witness :
    (prepareFrame opsW srcW (0, 0, 0)).palette.getD 0 default
      = srcW.palette.getD 0 default :=
  (prepareFrame_transparency_rule opsW srcW (0, 0, 0) 0 (by decide)).1
    (Or.inl (by decide))

/-- C4: for every source frame and overlay color, the output frame keeps
the source's pixel index buffer, stride and bounding rectangle, and its
palette has the same length as the source palette (indices in the pixel
buffer are untouched since the buffer itself is shared). -/
theorem prepareFrame_geometry (ops : ColorfulOps) (src : Paletted)
    (overlayColor : CColor) :
    (prepareFrame ops src overlayColor).pix = src.pix ∧
    (prepareFrame ops src overlayColor).stride = src.stride ∧
    (prepareFrame ops src overlayColor).rect = src.rect ∧
    (prepareFrame ops src overlayColor).palette.length
      = src.palette.length := by
  simp [prepareFrame]

/-- C5: for a source with `n ≥ 1` frames and `loopCount ≥ 1`, the program
works on `frameCount = n * loopCount` output slots: the generated overlay
sequence has length `frameCount`, and the allocated output frame sequence
has length `frameCount` with every entry non-nil. -/
theorem pipeline_length_invariants (colors : List CColor)
    (n loopCount : Nat) (hn : 1 ≤ n) (hl : 1 ≤ loopCount) :
    (generate colors (n * loopCount)).length = n * loopCount ∧
    (newFramesAlloc (n * loopCount)).length = n * loopCount ∧
    (newFramesAlloc (n * loopCount)).all Option.isSome = true := by
  refine ⟨?_, ?_, ?_⟩
  · simp [generate]
  · simp [newFramesAlloc]
  · simp [newFramesAlloc]

/-- Witness for C5: a 2-frame source looped 3 times. -/
theorem pipeline_length_invariants_witness :
    (generate roygbv (2 * 3)).length = 2 * 3 ∧
    (newFramesAlloc (2 * 3)).length = 2 * 3 ∧
    (newFramesAlloc (2 * 3)).all Option.isSome = true :=
  pipeline_length_invariants roygbv 2 3 (by decide) (by decide)

/-- C6: parsing the gradient flag fails with an invalid-color error exactly
when some comma-separated component is not exactly six hexadecimal digits,
and the empty gradient string yields the built-in 6-color rainbow default
(red, orange, yellow, green, blue, violet). -/
theorem parseGradient_six_hex_and_default :
    (∀ s : String,
      isErr (parseGradientColors s)
        = (decide (s ≠ "") && !((s.splitOn ",").all isSixHex))) ∧
    parseGradientColors "" = Except.ok roygbv := by
  constructor
  · intro s
    unfold parseGradientColors
    by_cases hs : s = ""
    · subst hs
      rw [if_neg (fun hh => hh rfl)]
      simp [isErr]
    · have hlen : s.length ≠ 0 := fun h0 => hs ((strLength_eq_zero_iff s).mp h0)
      rw [if_pos hlen, parseHexList_isErr]
      simp [hs]
  · rfl

/-- C7: the claim says two runs with the same inputs and `workerCount`
produce byte-identical outputs regardless of thread interleaving.  The
shared-cursor loop refutes this: under the same configuration `cfgTwo`,
the interleaving `schedSeqTwo` completes with both slots written once
each, while `schedRace` completes with slot 0 written twice and slot 1
left as the untouched empty frame — two different finished outputs for
identical inputs. -/
theorem scheduler_output_depends_on_interleaving :
    allDone (execSchedule cfgTwo schedSeqTwo) ∧
    allDone (execSchedule cfgTwo schedRace) ∧
    outputsOf cfgTwo (execSchedule cfgTwo schedSeqTwo)
      ≠ outputsOf cfgTwo (execSchedule cfgTwo schedRace) := by decide

/-- C8: the output delay and disposal arrays have one entry per output
frame (`frameCount = originalFrameCount * loopCount`), cycled as
`newArray[i] = oldArray[i mod len(oldArray)]`, and the background index
and color model are cleared before encoding.  The positivity hypotheses
mirror Go, where `i % 0` would panic. -/
theorem assembleOutput_metadata (img : GIFData) (newFrames : List Paletted)
    (loopCount : Nat)
    (hlen : newFrames.length = img.image.length * loopCount)
    (hd : 0 < img.delay.length) (hq : 0 < img.disposal.length)
    (i : Nat) (hi : i < newFrames.length) :
    (assembleOutput img newFrames).delay.length
      = img.image.length * loopCount ∧
    (assembleOutput img newFrames).disposal.length
      = img.image.length * loopCount ∧
    (assembleOutput img newFrames).delay.getD i 0
      = img.delay.getD (i % img.delay.length) 0 ∧
    (assembleOutput img newFrames).disposal.getD i 0
      = img.disposal.getD (i % img.disposal.length) 0 ∧
    (assembleOutput img newFrames).backgroundIndex = 0 ∧
    (assembleOutput img newFrames).colorModel = none := by
  refine ⟨?_, ?_, ?_, ?_, rfl, rfl⟩
  · simp [assembleOutput, hlen]
  · simp [assembleOutput, hlen]
  · exact getD_range_map _ _ _ _ hi
  · exact getD_range_map _ _ _ _ hi

/-- Witness for C8: a 1-frame source looped twice; the second output frame
reuses the single source delay. -/
theorem assembleOutput_metadata_witness :
    (assembleOutput
        { image := [emptyPaletted], delay := [4], disposal := [2],
          backgroundIndex := 7, colorModel := some () }
        [emptyPaletted, emptyPaletted]).delay.getD 1 0
      = ([4] : List Int).getD (1 % ([4] : List Int).length) 0 :=
  (assembleOutput_metadata
    { image := [emptyPaletted], delay := [4], disposal := [2],
      backgroundIndex := 7, colorModel := some () }
    [emptyPaletted, emptyPaletted] 2 (by decide) (by decide) (by decide)
    1 (by decide)).2.2.1

/-- C9: `main` terminates with exit code 1 and a single message — before
any frame is handed to the worker loop — when the thread count is
non-positive, a gradient color is invalid, the loop count is non-positive,
or the positional-argument count is not two; likewise (after the early
checks) on file-open, decode, or encode failure.  The run errors exactly
on those conditions, every error exit code is 1, and any failure up to the
decode step happens with zero slots processed. -/
theorem main_exit_behavior (inp : CmdInput) :
    ((∃ c m, (runMain inp).1 = Except.error (c, m)) ↔
      (inp.threads ≤ 0 ∨ isErr (parseGradientColors inp.gradient) = true ∨
       inp.loopCount < 1 ∨ inp.args.length ≠ 2 ∨ inp.openErr.isSome = true ∨
       isErr inp.decodeRes = true ∨ inp.outOpenErr.isSome = true ∨
       inp.encodeErr.isSome = true)) ∧
    (∀ c m, (runMain inp).1 = Except.error (c, m) → c = 1) ∧
    ((inp.threads ≤ 0 ∨ isErr (parseGradientColors inp.gradient) = true ∨
      inp.loopCount < 1 ∨ inp.args.length ≠ 2 ∨ inp.openErr.isSome = true ∨
      isErr inp.decodeRes = true) → (runMain inp).2 = 0) := by
  obtain ⟨t, g, lc, args, oe, dr, ooe, ee⟩ := inp
  unfold runMain
  dsimp only
  by_cases h1 : t ≤ 0
  · simp_all [isErr]
  · rw [if_neg h1]
    cases hg : parseGradientColors g with
    | error e => simp_all [isErr]
    | ok cs =>
        dsimp only
        by_cases h2 : lc < 1
        · simp_all [isErr]
        · rw [if_neg h2]
          by_cases h3 : args.length ≠ 2
          · simp_all [isErr]
          · rw [if_neg h3]
            cases oe with
            | some e => simp_all [isErr]
            | none =>
                dsimp only
                cases dr with
                | error e => simp_all [isErr]
                | ok img =>
                    dsimp only
                    cases ooe with
                    | some e => simp_all [isErr]
                    | none =>
                        dsimp only
                        cases ee with
                        | some e => simp_all [isErr]
                        | none => simp_all [isErr]

/-- Witness for C9: a run invoked with `threads = 0` processes no frames. -/
theorem main_exit_behavior_witness :
    (runMain
      { threads := 0, gradient := "", loopCount := 1, args := ["in", "out"],
        openErr := none,
        decodeRes := Except.ok
          { image := [], delay := [], disposal := [],
            backgroundIndex := 0, colorModel := some () },
        outOpenErr := none, encodeErr := none }).2 = 0 :=
  (main_exit_behavior _).2.2 (Or.inl (by decide))

/-- C10: in the worker loop, `processed` starts at 0 and is never
incremented, so the quota `framesPerThread = len(sourceFrames)/threads + 1`
never bounds the work: under every schedule of every configuration all
workers still have `processed = 0`, and with `threads = 1` (configuration
`cfgSeqOne`, quota 2) the single worker nevertheless processes all 3
output slots, exiting only when `frameIndex` reaches `frameCount`. -/
theorem worker_quota_never_binds :
    (∀ (c : SchedCfg) (sched : List Nat),
      ∀ wk ∈ (execSchedule c sched).workers, wk.processed = 0) ∧
    framesPerThread cfgSeqOne < cfgSeqOne.frameCount ∧
    allDone (execSchedule cfgSeqOne (seqSchedule 3)) ∧
    writeCount (execSchedule cfgSeqOne (seqSchedule 3)) 0 = 1 ∧
    writeCount (execSchedule cfgSeqOne (seqSchedule 3)) 1 = 1 ∧
    writeCount (execSchedule cfgSeqOne (seqSchedule 3)) 2 = 1 ∧
    (execSchedule cfgSeqOne (seqSchedule 3)).log.length = 3 := by
  refine ⟨?_, by decide, by decide, by decide, by decide, by decide, by decide⟩
  intro c sched
  apply foldl_stepWorker_processed
  intro wk hm
  simp only [initState] at hm
  rw [List.eq_of_mem_replicate hm]

/-- Witness for C10: the finished single worker of the sequential run has
`processed = 0`. -/
theorem worker_quota_never_binds_witness :
    ({ pc := WPC.done, processed := 0 } : WorkerSt).processed = 0 :=
  worker_quota_never_binds.1 cfgSeqOne (seqSchedule 3)
    { pc := WPC.done, processed := 0 } (by decide)
